import Mathlib

/-!
Shallow embedding of the synchronization / retention engine of
`cronjobs/fetch_marc_updates.py` (a Python 2 cron tool that mirrors dated
export files from an FTP server into a cumulative local archive).

Conventions of the embedding:
* Python strings become `String` / `List Char`; Python's `<`, `>`, `>=` on
  strings compare code points lexicographically, embedded here as `lexLt`.
* Fallible Python code (functions that may raise, or that call the fatal
  error helper) becomes `Option` / `Except Err`.
* `Err.fatal` stands for the `util.Error` path (error notification, then
  `sys.exit(1)`, i.e. a `SystemExit` that the top-level `except Exception`
  handler does not catch); `Err.exc` stands for an ordinary raised
  exception, which the top-level handler does catch.
* The regular expressions appearing in the source are translated into
  executable Lean functions, one per pattern, following Python `re`
  semantics (`re.match` anchors at the start only, `.` matches anything but
  a newline, `\D*?` is a lazy non-digit run, alternations backtrack).
-/

namespace FetchMarcUpdates

/-! ## Characters, digits and lexicographic string comparison -/

/-- ASCII digit test, Python's `\d` on byte strings. -/
def isDigitB (c : Char) : Bool := 48 ≤ c.toNat && c.toNat ≤ 57

/-- Numeric value of a digit character. -/
def digitVal (c : Char) : Nat := c.toNat - 48

/-- The digit character for `n < 10` (zero for out-of-range arguments,
which never occur in this development). -/
def digitChar : Nat → Char
  | 0 => '0' | 1 => '1' | 2 => '2' | 3 => '3' | 4 => '4'
  | 5 => '5' | 6 => '6' | 7 => '7' | 8 => '8' | _ => '9'

/-- Python's `<` on strings: lexicographic comparison of code points. -/
def lexLt : List Char → List Char → Bool
  | [], [] => false
  | [], _ :: _ => true
  | _ :: _, [] => false
  | a :: as, b :: bs =>
    if a.toNat < b.toNat then true
    else if a.toNat = b.toNat then lexLt as bs
    else false

/-- Numeric value of a digit string (most significant digit first). -/
def natVal : List Char → Nat
  | [] => 0
  | c :: cs => digitVal c * 10 ^ cs.length + natVal cs

/-! ## Calendar arithmetic (`datetime.strptime`/`timedelta`/`strftime`) -/

/-- Gregorian leap-year test, as `datetime` implements it. -/
def isLeap (y : Nat) : Bool := y % 4 == 0 && (!(y % 100 == 0) || y % 400 == 0)

/-- Number of days of month `m` in year `y`. -/
def daysInMonth (y m : Nat) : Nat :=
  if m = 2 then (if isLeap y then 29 else 28)
  else if m = 4 ∨ m = 6 ∨ m = 9 ∨ m = 11 then 30
  else 31

/-- The `%y` pivot of `strptime`: two-digit years 00-68 mean 2000-2068 and
69-99 mean 1969-1999. -/
def pivotYear (yy : Nat) : Nat := if yy ≤ 68 then 2000 + yy else 1900 + yy

/-- Models `datetime.strptime(s, "%y%m%d")`: six ASCII digits whose month and day
fields denote an existing calendar date; returns the (full-year, month,
day) triple, or `none` where Python raises `ValueError`. -/
def parseYYMMDD (s : String) : Option (Nat × Nat × Nat) :=
  match s.data with
  | [c1, c2, c3, c4, c5, c6] =>
    if [c1, c2, c3, c4, c5, c6].all isDigitB then
      let yy := 10 * digitVal c1 + digitVal c2
      let mm := 10 * digitVal c3 + digitVal c4
      let dd := 10 * digitVal c5 + digitVal c6
      let y := pivotYear yy
      if 1 ≤ mm ∧ mm ≤ 12 ∧ 1 ≤ dd ∧ dd ≤ daysInMonth y mm then
        some (y, mm, dd)
      else none
    else none
  | _ => none

/-- Two zero-padded decimal digits of `n < 100`. -/
def pad2 (n : Nat) : List Char := [digitChar (n / 10), digitChar (n % 10)]

/-- Models `date.strftime("%y%m%d")` of a (full-year, month, day) triple. -/
def formatYYMMDD : Nat × Nat × Nat → String
  | (y, m, d) => String.mk (pad2 (y % 100) ++ pad2 m ++ pad2 d)

/-- Models `date + timedelta(days=1)` on a calendar triple. -/
def nextDay : Nat × Nat × Nat → Nat × Nat × Nat
  | (y, m, d) =>
    if d < daysInMonth y m then (y, m, d + 1)
    else if m < 12 then (y, m + 1, 1)
    else (y + 1, 1, 1)

/-- Models `date - timedelta(days=1)` on a calendar triple. -/
def prevDay : Nat × Nat × Nat → Nat × Nat × Nat
  | (y, m, d) =>
    if 2 ≤ d then (y, m, d - 1)
    else if 2 ≤ m then (y, m - 1, daysInMonth y (m - 1))
    else (y - 1, 12, 31)

/-- Models `date - timedelta(days=n)`. -/
def prevDays : Nat → Nat × Nat × Nat → Nat × Nat × Nat
  | 0, t => t
  | n + 1, t => prevDays n (prevDay t)

/-- Models `IncrementStringDate`: `"000000"` (minus infinity) is returned
unchanged; otherwise the date is parsed with `%y%m%d`, one day is added and
the result is reformatted.  `none` models the `ValueError` that
`strptime` raises on a malformed date. -/
def IncrementStringDate (s : String) : Option String :=
  if s = "000000" then some s
  else
    match parseYYMMDD s with
    | none => none
    | some t => some (formatYYMMDD (nextDay t))

/-- Models `ShiftDateToTenDaysBefore`: parse with `%y%m%d`, subtract ten days,
reformat; `none` models the `ValueError` on a malformed date (including
the sentinel `"000000"`, whose month field is zero). -/
def ShiftDateToTenDaysBefore (s : String) : Option String :=
  match parseYYMMDD s with
  | none => none
  | some t => some (formatYYMMDD (prevDays 10 t))

/-! ## Date extraction from filenames -/

/-- One candidate start position `i` for the regex `.+(\d{6}).+` matched
against `cs`: at least one non-newline character before `i`, six digits at
`i`, and at least one further non-newline character after them. -/
def windowOk (cs : List Char) (i : Nat) : Bool :=
  decide (1 ≤ i) &&
  ((cs.take i).all fun c => !(c == '\n')) &&
  decide (((cs.drop i).take 6).length = 6) &&
  (((cs.drop i).take 6).all isDigitB) &&
  (match (cs.drop i).drop 6 with
   | c :: _ => !(c == '\n')
   | [] => false)

/-- Models `ExtractDateFromFilename`: `re.match(".+(\d{6}).+", filename)` and
`group(1)`.  The leading `.+` is greedy, so the captured window is the one
at the largest feasible start position.  `none` models the fatal
`util.Error("... does not contain a date!")` branch. -/
def ExtractDateFromFilename (s : String) : Option String :=
  match ((List.range s.data.length).filter (windowOk s.data)).getLast? with
  | some i => some (String.mk ((s.data.drop i).take 6))
  | none => none

/-- The property the regex `.+(\d{6}).+` recognises, stated as a
decomposition of the filename: a non-empty newline-free prefix, a six
digit run, and at least one non-newline character after it. -/
def HasDateShape (s : String) : Prop :=
  ∃ p d c rest, s.data = p ++ d ++ c :: rest ∧ p ≠ [] ∧
    (∀ x ∈ p, ¬(x = '\n')) ∧ d.length = 6 ∧
    (∀ x ∈ d, isDigitB x = true) ∧ ¬(c = '\n')

/-! ## The deletion-shape pattern of `DeleteAllFilesOlderThan` -/

/-- Models `re.match("\D*?-(\d{6}).*", filename)` and its first group: a lazy
run of non-digits, a dash, then six digits.  The lazy engine tries to
match the dash at each position in turn and can only extend the `\D*?`
run over non-digit characters, which the recursion mirrors exactly. -/
def deleteShapeGroup : List Char → Option (List Char)
  | [] => none
  | c :: rest =>
    if c == '-' && ((rest.take 6).length == 6 && (rest.take 6).all isDigitB) then
      some (rest.take 6)
    else if isDigitB c then none
    else deleteShapeGroup rest

/-- Model of `re.compile("").match(filename)`: the empty pattern produces
a (zero-width) match on every string, so the exclusion test of
`DeleteAllFilesOlderThan`'s default `exclude_pattern=""` is always true. -/
def emptyPatternMatch : String → Bool := fun _ => true

/-- Models `DeleteAllFilesOlderThan(date, directory, exclude_pattern)`: a stored
file is removed exactly when it matches the deletion-shape pattern, its
captured six-digit group is lexicographically below `date`, and the
exclusion regex does not match it.  The store is a list of filenames. -/
def DeleteAllFilesOlderThan (date : String) (files : List String)
    (excludeMatch : String → Bool) : List String :=
  files.filter fun f =>
    !(match deleteShapeGroup f.data with
      | some g => lexLt g date.data && !(excludeMatch f)
      | none => false)

/-! ## Category filename patterns from the configuration template -/

/-- Checks a suffix against the regex tail `.tar.gz$` (the dots are regex
wildcards matching any character except a newline). -/
def suffixTarGzOk : List Char → Bool
  | [a, t1, t2, t3, b, g1, g2] =>
    (!(a == '\n')) && t1 == 't' && t2 == 'a' && t3 == 'r' &&
    (!(b == '\n')) && g1 == 'g' && g2 == 'z'
  | _ => false

/-- Checks a suffix against the regex tail `$` (end of string). -/
def suffixEndOk (cs : List Char) : Bool := cs.isEmpty

/-- Matches `^(alt1|alt2|...)(\d{6})<suffix>$` against `cs`: each
alternative (which already carries its separator) is tried in order,
then six digits are captured, then the suffix check must accept the
remainder. -/
def matchDatedNameGo (sfxOk : List Char → Bool) (cs : List Char) :
    List (List Char) → Option String
  | [] => none
  | p :: ps =>
    if p.isPrefixOf cs then
      let rest := cs.drop p.length
      if (rest.take 6).length == 6 && (rest.take 6).all isDigitB &&
          sfxOk (rest.drop 6) then
        some (String.mk (rest.take 6))
      else matchDatedNameGo sfxOk cs ps
    else matchDatedNameGo sfxOk cs ps

/-- Compiled form of the per-category filename regexes: returns the
six-digit capture group on a match, `none` otherwise. -/
def matchDatedName (alts : List (List Char)) (sfxOk : List Char → Bool)
    (s : String) : Option String :=
  matchDatedNameGo sfxOk s.data alts

/-- Pattern text of section `Kompletter Abzug` (full dump). -/
def kompletterPattern : String := "^SA-MARC-ixtheo-(\\d\\d\\d\\d\\d\\d).tar.gz$"

/-- Pattern text of section `Differenzabzug` (differential dump). -/
def differenzPattern : String :=
  "^(?:TA-MARC-ixtheo|SA-MARC-ixtheo_o|TA-MARC-ixtheo_o)-(\\d\\d\\d\\d\\d\\d).tar.gz$"

/-- Pattern text of section `Hinweisabzug`. -/
def hinweisPattern : String := "^SA-MARC-ixtheo_hinweis-(\\d\\d\\d\\d\\d\\d).tar.gz$"

/-- Pattern text of section `Normdatendifferenzabzug` (authority differential). -/
def normdatenPattern : String := "^(?:WA-MARCcomb)-(\\d\\d\\d\\d\\d\\d).tar.gz$"

/-- Pattern text of section `Loeschlisten` (deletion list). -/
def loeschPattern : String := "^LOEPPN-(\\d\\d\\d\\d\\d\\d)$"

/-- Pattern text of section `Loeschlisten2`. -/
def loesch2Pattern : String := "^LOEPPN_m-(\\d\\d\\d\\d\\d\\d)$"

/-- Pattern text of section `Errors`. -/
def errorsPattern : String := "^Errors_ixtheo_(\\d\\d\\d\\d\\d\\d)$"

/-- Compiled matcher of the full-dump pattern. -/
def kompletterMatch : String → Option String :=
  matchDatedName ["SA-MARC-ixtheo-".data] suffixTarGzOk

/-- Compiled matcher of the differential pattern (alternatives in source
order, each already including the dash separator that follows the
alternation group). -/
def differenzMatch : String → Option String :=
  matchDatedName
    ["TA-MARC-ixtheo-".data, "SA-MARC-ixtheo_o-".data, "TA-MARC-ixtheo_o-".data]
    suffixTarGzOk

/-- Compiled matcher of the `Hinweisabzug` pattern. -/
def hinweisMatch : String → Option String :=
  matchDatedName ["SA-MARC-ixtheo_hinweis-".data] suffixTarGzOk

/-- Compiled matcher of the authority-differential pattern. -/
def normdatenMatch : String → Option String :=
  matchDatedName ["WA-MARCcomb-".data] suffixTarGzOk

/-- Compiled matcher of the `Loeschlisten` pattern. -/
def loeschMatch : String → Option String :=
  matchDatedName ["LOEPPN-".data] suffixEndOk

/-- Compiled matcher of the `Loeschlisten2` pattern. -/
def loesch2Match : String → Option String :=
  matchDatedName ["LOEPPN_m-".data] suffixEndOk

/-- Compiled matcher of the `Errors` pattern. -/
def errorsMatch : String → Option String :=
  matchDatedName ["Errors_ixtheo_".data] suffixEndOk

/-! ## Pairing heuristic and batch completeness -/

/-- Substring search used to implement `re.search` below. -/
def containsSub (needle hay : List Char) : Bool :=
  match hay with
  | [] => needle.isEmpty
  | _ :: t => needle.isPrefixOf hay || containsSub needle t

/-- Models `NeedsBothInstances`: `re.search("_o[)]?-[(]?.*[)]?", pattern_text)`.
The tail `[(]?.*[)]?` matches anything (all parts optional), so the search
succeeds exactly when the pattern text contains `_o-` or `_o)-`. -/
def NeedsBothInstances (pat : String) : Bool :=
  containsSub "_o-".data pat.data || containsSub "_o)-".data pat.data

/-- Models `AreBothInstancesPresent`: an empty candidate list is complete;
otherwise the count of filenames matched by the category regex must be
even. -/
def AreBothInstancesPresent (m : String → Option String)
    (files : List String) : Bool :=
  if files.isEmpty then true
  else (files.filter fun f => (m f).isSome).length % 2 == 0

/-! ## Remote listing with retry -/

/-- Error kinds of a run.  `fatal` models the `util.Error` helper
(notification plus `sys.exit(1)`), `exc` models an ordinary raised Python
exception. -/
inductive Err where
  | fatal (msg : String)
  | exc (msg : String)

/-- Keeps the remote names the category regex matches whose captured date
is `>= cutoff` (Python string comparison). -/
def filterByCutoff (m : String → Option String) (cutoff : String)
    (names : List String) : List String :=
  names.filter fun f =>
    match m f with
    | some d => !(lexLt d.data cutoff.data)
    | none => false

/-- Models `GetListOfRemoteFiles` after the `cwd` step: the body of the
`for i in xrange(3)` retry loop, unrolled.  `attempts i` is the outcome of
the `i`-th `ftp.nlst()` sweep.  Returns the `time.sleep` durations
performed (`10 * (i + 1)` seconds after the `i`-th failure) and either the
filtered listing of the first successful attempt or the exception variable
as of the end of the loop — which each failing iteration overwrites, so
after three failures the third error is raised. -/
def GetListOfRemoteFiles (attempts : Nat → Except String (List String))
    (m : String → Option String) (cutoff : String) :
    List Nat × Except String (List String) :=
  match attempts 0 with
  | .ok ns => ([], .ok (filterByCutoff m cutoff ns))
  | .error _ =>
    match attempts 1 with
    | .ok ns => ([10], .ok (filterByCutoff m cutoff ns))
    | .error _ =>
      match attempts 2 with
      | .ok ns => ([10, 20], .ok (filterByCutoff m cutoff ns))
      | .error e2 => ([10, 20, 30], .error e2)

/-- Models `DownloadRemoteFiles`: list the remote candidates, and for a category
whose pattern announces paired instances, abort fatally when the batch is
incomplete, before a single `DownLoadFile` call is made. -/
def DownloadRemoteFiles (pat : String) (m : String → Option String)
    (attempts : Nat → Except String (List String)) (cutoff : String) :
    List Nat × Except Err (List String) :=
  match GetListOfRemoteFiles attempts m cutoff with
  | (sleeps, .error e) => (sleeps, .error (Err.exc e))
  | (sleeps, .ok files) =>
    if NeedsBothInstances pat && !(AreBothInstancesPresent m files) then
      (sleeps, .error (Err.fatal
        "Skip downloading of files since apparently generation is not complete"))
    else (sleeps, .ok files)

/-- Behaviour of `DownloadRemoteFiles` in a run whose listing succeeds immediately with
`names` (the view `Main` uses; the retry behaviour is covered by
`GetListOfRemoteFiles` above). -/
def DownloadRemoteFilesL (pat : String) (m : String → Option String)
    (names : List String) (cutoff : String) : Except Err (List String) :=
  (DownloadRemoteFiles pat m (fun _ => Except.ok names) cutoff).2

/-! ## Cumulative store operations -/

/-- Models `AddToCumulativeCollection`: copy each downloaded file into the store
directory (`shutil.copy` overwrites an existing file of the same name, so
the directory behaves as a set of filenames). -/
def AddToCumulativeCollection (files store : List String) : List String :=
  store ++ files.filter fun f => !(store.contains f)

/-- One fold step of `GetMostRecentFile`: a file whose regex match has a
capture group strictly above the best date seen so far becomes the new
best. -/
def gmrfStep (m : String → Option String) (acc : String × Option String)
    (f : String) : String × Option String :=
  match m f with
  | some d => if lexLt acc.1.data d.data then (d, some f) else acc
  | none => acc

/-- Models `GetMostRecentFile`: scan the filenames, tracking the lexicographically
largest capture group, starting from the sentinel `"000000"`. -/
def GetMostRecentFile (m : String → Option String) (files : List String) :
    Option String :=
  (files.foldl (gmrfStep m) ("000000", none)).2

/-- Models `GetCutoffDateForDownloads`: date of the most recent backup file under
the generic `.+(\d{6}).+` regex, or the sentinel for an empty (or
undatable) store.  The `Err.fatal` branch mirrors the `util.Error` inside
`ExtractDateFromFilename`; it is unreachable because the selected file was
itself chosen by the same regex. -/
def GetCutoffDateForDownloads (store : List String) : Except Err String :=
  match GetMostRecentFile ExtractDateFromFilename store with
  | none => .ok "000000"
  | some f =>
    match ExtractDateFromFilename f with
    | none => .error (Err.fatal (f ++ " does not contain a date!"))
    | some d => .ok d

/-- Models `CurrentIncrementalAuthorityDumpPresent`: is the most recent authority
differential in the store dated strictly after `cutoff`? -/
def CurrentIncrementalAuthorityDumpPresent (store : List String)
    (cutoff : String) : Except Err Bool :=
  match GetMostRecentFile normdatenMatch store with
  | none => .ok false
  | some f =>
    match ExtractDateFromFilename f with
    | none => .error (Err.fatal (f ++ " does not contain a date!"))
    | some d => .ok (lexLt cutoff.data d.data)

/-- Models `CleanUpCumulativeCollection`: find the most recent full dump; if none,
do nothing.  Otherwise prune everything older than its date except
authority differentials, then prune again at the date shifted back ten
days — this second call passes no exclusion pattern, so it runs with the
default `exclude_pattern=""`, i.e. `emptyPatternMatch`. -/
def CleanUpCumulativeCollection (completeM authorityM : String → Option String)
    (store : List String) : Except Err (List String) :=
  match GetMostRecentFile completeM store with
  | none => .ok store
  | some f =>
    match completeM f with
    | none => .ok store
    | some d =>
      if d.data.isEmpty then .ok store
      else
        let store1 := DeleteAllFilesOlderThan d store
          (fun g => (authorityM g).isSome)
        match ShiftDateToTenDaysBefore d with
        | none => .error (Err.exc ("time data " ++ d ++ " does not match format yymmdd"))
        | some d10 => .ok (DeleteAllFilesOlderThan d10 store1 emptyPatternMatch)

/-! ## The per-category download step and the full-dump consistency check -/

/-- Run state threaded through `Main`: the cumulative store contents, the
summary message lines, and a trace of the files downloaded per section. -/
structure RunState where
  store : List String
  msg : List String
  downloads : List (String × List String)

/-- State update of `DownloadData` after a successful
`DownloadRemoteFiles`: report when nothing was new, otherwise absorb the
downloads into the cumulative store. -/
def dlStep (pat : String) (files : List String) (sec : String)
    (st : RunState) : RunState :=
  if files.length == 0 then
    { st with msg := st.msg ++ ["No more recent file for pattern " ++ pat],
              downloads := st.downloads ++ [(sec, [])] }
  else
    { st with msg := st.msg ++ ["Successfully downloaded"],
              store := AddToCumulativeCollection files st.store,
              downloads := st.downloads ++ [(sec, files)] }

/-- Models `DownloadData` for one section, with `names` the successful remote
listing of that section's directory. -/
def DownloadData (pat : String) (m : String → Option String)
    (names : List String) (sec : String) (cutoff : String)
    (st : RunState) : Except Err (RunState × List String) :=
  match DownloadRemoteFilesL pat m names cutoff with
  | .error e => .error e
  | .ok files => .ok (dlStep pat files sec st, files)

/-- The loop of `DownloadCompleteData` over the downloaded files: every
file's extracted date must equal `d0`, the date of the first file; a file
without an extractable date is itself fatal. -/
def checkDatesLoop (d0 : String) : List String → Except Err Unit
  | [] => .ok ()
  | f :: fs =>
    match ExtractDateFromFilename f with
    | none => .error (Err.fatal (f ++ " does not contain a date!"))
    | some d =>
      if d == d0 then checkDatesLoop d0 fs
      else .error (Err.fatal "We have a complete data dump set with differing dates")

/-- The post-download consistency stage of `DownloadCompleteData`: without
paired instances, exactly zero or one file may arrive; with paired
instances, all downloaded files must carry the same extracted date. -/
def checkCompleteData (pat : String) (files : List String) :
    Except Err (Option (List String)) :=
  if !(NeedsBothInstances pat) then
    if files.length == 1 then .ok (some files)
    else if files.length == 0 then .ok none
    else .error (Err.fatal "downloaded multiple complete date tar files!")
  else
    match files with
    | [] => .ok none
    | f0 :: rest =>
      match ExtractDateFromFilename f0 with
      | none => .error (Err.fatal (f0 ++ " does not contain a date!"))
      | some d0 =>
        match checkDatesLoop d0 (f0 :: rest) with
        | .error e => .error e
        | .ok _ => .ok (some (f0 :: rest))

/-- Models `DownloadCompleteData`: download the full-dump section, then run the
consistency stage on the downloaded batch. -/
def DownloadCompleteData (pat : String) (m : String → Option String)
    (names : List String) (cutoff : String) (st : RunState) :
    Except Err (RunState × Option (List String)) :=
  match DownloadData pat m names "Kompletter Abzug" cutoff st with
  | .error e => .error e
  | .ok (st', files) =>
    match checkCompleteData pat files with
    | .error e => .error e
    | .ok r => .ok (st', r)

/-! ## The orchestrating `Main` and the process exit contract -/

/-- Environment of one run: the initial contents of the cumulative store
directory and, per configuration section, the (successful) remote
directory listing.  The configuration is the template from the source
file's docstring, in which every optional section is present. -/
structure Env where
  store : List String
  remote : String → List String

/-- Lines 347 of `Main`: the download cutoff is the day after the date of
the most recent backup file. -/
def mainCutoff (env : Env) : Except Err String :=
  match GetCutoffDateForDownloads env.store with
  | .error e => .error e
  | .ok base =>
    match IncrementStringDate base with
    | none => .error (Err.exc ("time data " ++ base ++ " does not match format yymmdd"))
    | some c => .ok c

/-- Models `Main` from the `Differenzabzug` download on: the remaining sections,
the ten-day shift for the authority-differential cutoff, the conditional
authority download, and the cleanup pass. -/
def mainTail (env : Env) (cutoff2 : String) (st : RunState) :
    Except Err RunState :=
  match DownloadData differenzPattern differenzMatch
      (env.remote "Differenzabzug") "Differenzabzug" cutoff2 st with
  | .error e => .error e
  | .ok (st2, _) =>
    match DownloadData loeschPattern loeschMatch
        (env.remote "Loeschlisten") "Loeschlisten" cutoff2 st2 with
    | .error e => .error e
    | .ok (st3, _) =>
      match DownloadData loesch2Pattern loesch2Match
          (env.remote "Loeschlisten2") "Loeschlisten2" cutoff2 st3 with
      | .error e => .error e
      | .ok (st4, _) =>
        match DownloadData hinweisPattern hinweisMatch
            (env.remote "Hinweisabzug") "Hinweisabzug" "000000" st4 with
        | .error e => .error e
        | .ok (st5, _) =>
          match DownloadData errorsPattern errorsMatch
              (env.remote "Errors") "Errors" cutoff2 st5 with
          | .error e => .error e
          | .ok (st6, _) =>
            match ShiftDateToTenDaysBefore cutoff2 with
            | none => .error (Err.exc
                ("time data " ++ cutoff2 ++ " does not match format yymmdd"))
            | some authCutoff =>
              match CurrentIncrementalAuthorityDumpPresent st6.store authCutoff with
              | .error e => .error e
              | .ok present =>
                let next : Except Err RunState :=
                  if present then
                    .ok { st6 with msg := st6.msg ++
                      ["Skipping Download of Normdatendifferenzabzug since already present"] }
                  else
                    match DownloadData normdatenPattern normdatenMatch
                        (env.remote "Normdatendifferenzabzug")
                        "Normdatendifferenzabzug" authCutoff st6 with
                    | .error e => .error e
                    | .ok (st7, _) => .ok st7
                match next with
                | .error e => .error e
                | .ok st7 =>
                  match CleanUpCumulativeCollection kompletterMatch
                      normdatenMatch st7.store with
                  | .error e => .error e
                  | .ok store2 => .ok { st7 with store := store2 }

/-- Models `Main` of the script: compute the cutoff, download the full dump,
recompute the cutoff from it when one arrived, then process the remaining
sections via `mainTail`. -/
def Main (env : Env) : Except Err RunState :=
  match mainCutoff env with
  | .error e => .error e
  | .ok cutoff1 =>
    match DownloadCompleteData kompletterPattern kompletterMatch
        (env.remote "Kompletter Abzug") cutoff1 (RunState.mk env.store [] []) with
    | .error e => .error e
    | .ok (st1, completeOpt) =>
      match completeOpt with
      | none => mainTail env cutoff1 st1
      | some [] => .error (Err.exc "IndexError: list index out of range")
      | some (f0 :: _) =>
        match ExtractDateFromFilename f0 with
        | none => .error (Err.fatal (f0 ++ " does not contain a date!"))
        | some d => mainTail env d st1

/-- Modelled from the spec: the behaviour of the missing `util` module's
error helper and of the process around `Main`.  `util.Error` sends a
highest-priority notification and terminates via `sys.exit(1)`; the
resulting `SystemExit` is not an `Exception` in Python 2, so the script's
top-level `try/except Exception` handler does not catch it and the process
exits with status 1.  An ordinary exception, however, is caught by that
handler, which sends the error notification and then falls off the end of
the script — exiting with status 0.  A successful `Main` sends the summary
notification and also exits 0.  Result: (exit status, error notification
sent, summary notification sent). -/
def TopLevel (env : Env) : Nat × Bool × Bool :=
  match Main env with
  | .ok _ => (0, false, true)
  | .error (.fatal _) => (1, true, false)
  | .error (.exc _) => (0, true, false)


/-! ## Helper lemmas shared by the claim theorems -/

/-- Fact: `AreBothInstancesPresent` is even-parity of the matching count, also
for the empty list (whose count is zero). -/
theorem abp_eq (m : String → Option String) (files : List String) :
    AreBothInstancesPresent m files =
      ((files.filter fun f => (m f).isSome).length % 2 == 0) := by
  cases files with
  | nil => rfl
  | cons f fs => rfl

/-- Every file kept by `filterByCutoff` matches the category regex. -/
theorem filterByCutoff_matching (m : String → Option String) (c : String)
    (ns : List String) :
    (filterByCutoff m c ns).filter (fun f => (m f).isSome) =
      filterByCutoff m c ns := by
  apply List.filter_eq_self.mpr
  intro f hf
  have hp := (List.mem_filter.mp hf).2
  cases h : m f with
  | none => rw [h] at hp; simp at hp
  | some d => simp [h]

/-- Fact: `DownloadRemoteFilesL` unfolded on a successful listing. -/
theorem drfl_eq (pat : String) (m : String → Option String)
    (names : List String) (cutoff : String) :
    DownloadRemoteFilesL pat m names cutoff =
      (if NeedsBothInstances pat &&
          !(AreBothInstancesPresent m (filterByCutoff m cutoff names)) then
        Except.error (Err.fatal
          "Skip downloading of files since apparently generation is not complete")
      else Except.ok (filterByCutoff m cutoff names)) := by
  unfold DownloadRemoteFilesL DownloadRemoteFiles GetListOfRemoteFiles
  cases hc : NeedsBothInstances pat &&
      !AreBothInstancesPresent m (filterByCutoff m cutoff names) <;>
    simp [hc]

/-- A category that does not require paired instances never fails the
pairing gate. -/
theorem DownloadData_ok_noPair (pat : String) (m : String → Option String)
    (ns : List String) (sec c : String) (st : RunState)
    (h : NeedsBothInstances pat = false) :
    DownloadData pat m ns sec c st =
      .ok (dlStep pat (filterByCutoff m c ns) sec st, filterByCutoff m c ns) := by
  unfold DownloadData
  rw [drfl_eq, h]
  rfl

/-- A batch with an even matching count passes the pairing gate. -/
theorem DownloadData_ok_even (pat : String) (m : String → Option String)
    (ns : List String) (c : String) (sec : String) (st : RunState)
    (h : (filterByCutoff m c ns).length % 2 = 0) :
    DownloadData pat m ns sec c st =
      .ok (dlStep pat (filterByCutoff m c ns) sec st, filterByCutoff m c ns) := by
  unfold DownloadData
  rw [drfl_eq]
  have habp : AreBothInstancesPresent m (filterByCutoff m c ns) = true := by
    rw [abp_eq, filterByCutoff_matching, h]
    rfl
  rw [habp]
  simp

/-- An odd matching count makes the pairing gate abort fatally. -/
theorem DownloadData_err_odd (pat : String) (m : String → Option String)
    (ns : List String) (c : String) (sec : String) (st : RunState)
    (hpair : NeedsBothInstances pat = true)
    (h : (filterByCutoff m c ns).length % 2 = 1) :
    DownloadData pat m ns sec c st =
      .error (Err.fatal
        "Skip downloading of files since apparently generation is not complete") := by
  unfold DownloadData
  rw [drfl_eq]
  have habp : AreBothInstancesPresent m (filterByCutoff m c ns) = false := by
    rw [abp_eq, filterByCutoff_matching, h]
    rfl
  rw [habp, hpair]
  rfl

/-! ## C1: cleanup is claimed to delete all stale authority differentials -/

/-- C1 (code bug): in a store holding the full dump
`SA-MARC-ixtheo-200120.tar.gz` and the authority differential
`WA-MARCcomb-200101.tar.gz`, whose date `200101` lies strictly before the
shifted date `200110 = 200120 - 10 days`, the cleanup pass completes and
leaves the store unchanged: the authority differential the claim requires
to be deleted is still present, because the second
`DeleteAllFilesOlderThan` call runs with the default empty exclude
pattern, which matches every filename. -/
theorem c1_cleanup_keeps_stale_authority_file :
    CleanUpCumulativeCollection kompletterMatch normdatenMatch
        ["SA-MARC-ixtheo-200120.tar.gz", "WA-MARCcomb-200101.tar.gz"] =
      Except.ok ["SA-MARC-ixtheo-200120.tar.gz", "WA-MARCcomb-200101.tar.gz"] ∧
    GetMostRecentFile kompletterMatch
        ["SA-MARC-ixtheo-200120.tar.gz", "WA-MARCcomb-200101.tar.gz"] =
      some "SA-MARC-ixtheo-200120.tar.gz" ∧
    ShiftDateToTenDaysBefore "200120" = some "200110" ∧
    normdatenMatch "WA-MARCcomb-200101.tar.gz" = some "200101" ∧
    lexLt "200101".data "200110".data = true :=
  ⟨rfl, rfl, rfl, rfl, rfl⟩

/-! ## C2: the prune operation with no exclude matcher -/

/-- C2 (code bug): with no exclude matcher (the default
`exclude_pattern=""`), `DeleteAllFilesOlderThan` deletes nothing, even for
a file that matches the generic dash-six-digits shape and whose captured
date lies strictly below the threshold: `re.compile("")` matches every
filename, so the exclusion test always fires. -/
theorem c2_prune_default_exclude_deletes_nothing :
    DeleteAllFilesOlderThan "200110" ["WA-MARCcomb-200101.tar.gz"]
        emptyPatternMatch = ["WA-MARCcomb-200101.tar.gz"] ∧
    deleteShapeGroup "WA-MARCcomb-200101.tar.gz".data = some "200101".data ∧
    lexLt "200101".data "200110".data = true :=
  ⟨rfl, rfl, rfl⟩

/-! ## C5: retry schedule of the remote listing -/

/-- C5 (amended): the listing is attempted at most three times; after the
`i`-th failure the loop sleeps `10 * (i + 1)` seconds; a successful
attempt immediately returns the cutoff-filtered names with no further
attempt; and after three failures the error raised is the LAST (third)
one, since each failing iteration overwrites the saved exception. -/
theorem c5_retry_schedule (attempts : Nat → Except String (List String))
    (m : String → Option String) (cutoff : String)
    (e0 e1 e2 : String) (ns : List String) :
    (attempts 0 = .ok ns →
      GetListOfRemoteFiles attempts m cutoff =
        ([], .ok (filterByCutoff m cutoff ns))) ∧
    (attempts 0 = .error e0 → attempts 1 = .ok ns →
      GetListOfRemoteFiles attempts m cutoff =
        ([10], .ok (filterByCutoff m cutoff ns))) ∧
    (attempts 0 = .error e0 → attempts 1 = .error e1 → attempts 2 = .ok ns →
      GetListOfRemoteFiles attempts m cutoff =
        ([10, 20], .ok (filterByCutoff m cutoff ns))) ∧
    (attempts 0 = .error e0 → attempts 1 = .error e1 → attempts 2 = .error e2 →
      GetListOfRemoteFiles attempts m cutoff = ([10, 20, 30], .error e2)) := by
  refine ⟨?_, ?_, ?_, ?_⟩
  · intro h0
    unfold GetListOfRemoteFiles
    rw [h0]
  · intro h0 h1
    unfold GetListOfRemoteFiles
    rw [h0, h1]
  · intro h0 h1 h2
    unfold GetListOfRemoteFiles
    rw [h0, h1, h2]
  · intro h0 h1 h2
    unfold GetListOfRemoteFiles
    rw [h0, h1, h2]

/-- C5 (counterexample to the claim as stated): when all three attempts
fail with pairwise distinct errors `e0`, `e1`, `e2`, the error surfaced is
`e2`, the third one — not the original first error `e0`. -/
theorem c5_last_error_surfaced :
    GetListOfRemoteFiles
        (fun i => Except.error (if i = 0 then "e0" else if i = 1 then "e1" else "e2"))
        ExtractDateFromFilename "000000" = ([10, 20, 30], Except.error "e2") ∧
    ("e2" : String) ≠ "e0" :=
  ⟨rfl, by decide⟩

/-- Witness for C5: the amended theorem applied to a concrete run whose
three attempts all fail. -/
theorem c5_retry_schedule_witness :
    GetListOfRemoteFiles
        (fun i => Except.error (if i = 0 then "a0" else if i = 1 then "a1" else "a2"))
        ExtractDateFromFilename "000000" = ([10, 20, 30], Except.error "a2") :=
  (c5_retry_schedule
    (fun i => Except.error (if i = 0 then "a0" else if i = 1 then "a1" else "a2"))
    ExtractDateFromFilename "000000" "a0" "a1" "a2" []).2.2.2 rfl rfl rfl

/-! ## C6: batch completeness -/

/-- C6: an empty candidate list is always complete; in general the batch
is complete exactly when the count of filenames matching the category
regex is even (hence false for one or three matches, true for zero, two
or four); and for a category whose pattern does not require paired
instances the gate is not applied at all — the download step returns the
filtered listing unconditionally. -/
theorem c6_batch_completeness :
    (∀ m : String → Option String, AreBothInstancesPresent m [] = true) ∧
    (∀ (m : String → Option String) (files : List String),
      AreBothInstancesPresent m files =
        ((files.filter fun f => (m f).isSome).length % 2 == 0)) ∧
    (∀ (pat : String) (m : String → Option String) (names : List String)
      (cutoff : String), NeedsBothInstances pat = false →
      DownloadRemoteFilesL pat m names cutoff =
        .ok (filterByCutoff m cutoff names)) := by
  refine ⟨fun m => rfl, abp_eq, ?_⟩
  intro pat m names cutoff h
  rw [drfl_eq, h]
  rfl

/-- Witness for C6: a non-paired category (the full dump) downloads its
single candidate with no pairing check. -/
theorem c6_batch_completeness_witness :
    DownloadRemoteFilesL kompletterPattern kompletterMatch
        ["SA-MARC-ixtheo-200101.tar.gz"] "000000" =
      .ok ["SA-MARC-ixtheo-200101.tar.gz"] :=
  c6_batch_completeness.2.2 kompletterPattern kompletterMatch
    ["SA-MARC-ixtheo-200101.tar.gz"] "000000" rfl

/-! ## C7: an incomplete paired batch aborts before any download -/

/-- C7: for a category requiring paired instances, an odd number of
matching remote filenames makes `DownloadData` abort with the fatal
pairing error before the download loop runs, so no file is downloaded and
the run state is untouched. -/
theorem c7_incomplete_batch_aborts (pat : String) (m : String → Option String)
    (names : List String) (cutoff sec : String) (st : RunState)
    (hpair : NeedsBothInstances pat = true)
    (hodd : (filterByCutoff m cutoff names).length % 2 = 1) :
    DownloadData pat m names sec cutoff st =
      .error (Err.fatal
        "Skip downloading of files since apparently generation is not complete") :=
  DownloadData_err_odd pat m names cutoff sec st hpair hodd

/-- Witness for C7: the differential category with a single (odd) remote
candidate. -/
theorem c7_incomplete_batch_aborts_witness :
    DownloadData differenzPattern differenzMatch
        ["TA-MARC-ixtheo-200101.tar.gz"] "Differenzabzug" "000000"
        (RunState.mk [] [] []) =
      .error (Err.fatal
        "Skip downloading of files since apparently generation is not complete") :=
  c7_incomplete_batch_aborts differenzPattern differenzMatch
    ["TA-MARC-ixtheo-200101.tar.gz"] "000000" "Differenzabzug"
    (RunState.mk [] [] []) rfl rfl

/-! ## C4: the process exit contract -/

/-- C4 (amended): a successful run exits 0 after the summary
notification; a fatal condition raised through the `util.Error` helper
sends the error notification and exits 1; but an ordinary exception that
reaches the script's top-level handler sends the error notification and
then exits 0 — not with a non-zero status as the claim states. -/
theorem c4_exit_contract (env : Env) :
    ((Main env).isOk = true → TopLevel env = (0, false, true)) ∧
    (∀ msg, Main env = .error (Err.fatal msg) → TopLevel env = (1, true, false)) ∧
    (∀ msg, Main env = .error (Err.exc msg) → TopLevel env = (0, true, false)) := by
  refine ⟨?_, ?_, ?_⟩
  · intro h
    unfold TopLevel
    cases hm : Main env with
    | ok st => rfl
    | error e => rw [hm] at h; simp [Except.isOk, Except.toBool] at h
  · intro msg h
    unfold TopLevel
    rw [h]
  · intro msg h
    unfold TopLevel
    rw [h]

/-- C4 (counterexample to the claim as stated): with an empty store and an
empty remote, `Main` raises an ordinary exception (the `strptime`
`ValueError` on the sentinel cutoff), a fatal condition; the error
notification is sent, yet the process exits with status 0. -/
theorem c4_fatal_run_exits_zero :
    Main (Env.mk [] (fun _ => [])) =
      Except.error (Err.exc "time data 000000 does not match format yymmdd") ∧
    TopLevel (Env.mk [] (fun _ => [])) = (0, true, false) :=
  ⟨rfl, rfl⟩

/-- Witness for C4: a run that completes (store already holds a full dump,
remote has nothing new) exits 0 with the summary notification. -/
theorem c4_exit_contract_witness :
    TopLevel (Env.mk ["SA-MARC-ixtheo-200120.tar.gz"] (fun _ => [])) =
      (0, false, true) :=
  (c4_exit_contract (Env.mk ["SA-MARC-ixtheo-200120.tar.gz"] (fun _ => []))).1 rfl


/-! ## C8: date consistency of a paired full-dump batch -/

/-- A file whose extracted date differs from the reference date makes the
consistency loop of `DownloadCompleteData` abort fatally. -/
theorem checkDatesLoop_err (d0 : String) (l : List String)
    (h : ∃ f ∈ l, ExtractDateFromFilename f ≠ some d0) :
    ∃ msg, checkDatesLoop d0 l = .error (Err.fatal msg) := by
  induction l with
  | nil => rcases h with ⟨f, hf, _⟩; cases hf
  | cons f fs ih =>
    cases hx : ExtractDateFromFilename f with
    | none => exact ⟨f ++ " does not contain a date!", by simp [checkDatesLoop, hx]⟩
    | some d =>
      by_cases hd : d = d0
      · subst hd
        rcases h with ⟨g, hg, hne⟩
        rcases List.mem_cons.mp hg with rfl | hgs
        · exact absurd hx hne
        · rcases ih ⟨g, hgs, hne⟩ with ⟨msg, hm⟩
          exact ⟨msg, by simp [checkDatesLoop, hx, hm]⟩
      · refine ⟨"We have a complete data dump set with differing dates", ?_⟩
        simp [checkDatesLoop, hx, hd]

/-- When every file's extracted date equals the reference date, the
consistency loop succeeds. -/
theorem checkDatesLoop_ok (d0 : String) (l : List String)
    (h : ∀ f ∈ l, ExtractDateFromFilename f = some d0) :
    checkDatesLoop d0 l = .ok () := by
  induction l with
  | nil => rfl
  | cons f fs ih =>
    have hf := h f (List.mem_cons_self f fs)
    simp [checkDatesLoop, hf, ih (fun g hg => h g (List.mem_cons_of_mem f hg))]

/-- C8: for a full-dump category whose pattern requires paired instances,
once a non-empty batch passes the pairing gate, `DownloadCompleteData`
checks that every downloaded file's extracted date equals the first
file's; a batch containing a differing date is a fatal inconsistency that
aborts the run, and a batch of uniformly dated files is accepted. -/
theorem c8_full_dump_date_consistency (pat : String)
    (m : String → Option String) (names : List String) (cutoff : String)
    (st : RunState) (f0 : String) (rest : List String) (d0 : String)
    (hpair : NeedsBothInstances pat = true)
    (hfilter : filterByCutoff m cutoff names = f0 :: rest)
    (heven : (f0 :: rest).length % 2 = 0)
    (hd0 : ExtractDateFromFilename f0 = some d0) :
    ((∃ f ∈ f0 :: rest, ExtractDateFromFilename f ≠ some d0) →
      ∃ msg, DownloadCompleteData pat m names cutoff st =
        .error (Err.fatal msg)) ∧
    ((∀ f ∈ f0 :: rest, ExtractDateFromFilename f = some d0) →
      DownloadCompleteData pat m names cutoff st =
        .ok (dlStep pat (f0 :: rest) "Kompletter Abzug" st, some (f0 :: rest))) := by
  have hdd : DownloadData pat m names "Kompletter Abzug" cutoff st =
      .ok (dlStep pat (f0 :: rest) "Kompletter Abzug" st, f0 :: rest) := by
    have := DownloadData_ok_even pat m names cutoff
      "Kompletter Abzug" st (by rw [hfilter]; exact heven)
    rw [hfilter] at this
    exact this
  constructor
  · intro hbad
    rcases checkDatesLoop_err d0 (f0 :: rest) hbad with ⟨msg, hm⟩
    refine ⟨msg, ?_⟩
    unfold DownloadCompleteData
    rw [hdd]
    unfold checkCompleteData
    rw [hpair]
    simp [hd0, hm]
  · intro hgood
    unfold DownloadCompleteData
    rw [hdd]
    unfold checkCompleteData
    rw [hpair]
    simp [hd0, checkDatesLoop_ok d0 (f0 :: rest) hgood]

/-- Witness for C8: a paired batch of two files dated `200101` and
`200102` is rejected. -/
theorem c8_full_dump_date_consistency_witness :
    ∃ msg, DownloadCompleteData differenzPattern differenzMatch
        ["TA-MARC-ixtheo-200101.tar.gz", "TA-MARC-ixtheo_o-200102.tar.gz"]
        "000000" (RunState.mk [] [] []) = .error (Err.fatal msg) :=
  (c8_full_dump_date_consistency differenzPattern differenzMatch
      ["TA-MARC-ixtheo-200101.tar.gz", "TA-MARC-ixtheo_o-200102.tar.gz"]
      "000000" (RunState.mk [] [] []) "TA-MARC-ixtheo-200101.tar.gz"
      ["TA-MARC-ixtheo_o-200102.tar.gz"] "200101" rfl rfl rfl rfl).1
    ⟨"TA-MARC-ixtheo_o-200102.tar.gz", by simp, by decide⟩

/-! ## C10: the date-extraction shape -/

/-- The fold of `GetMostRecentFile` only ever produces a file the matcher
accepts (or whatever the accumulator already held). -/
theorem gmrf_acc (m : String → Option String) :
    ∀ (files : List String) (acc : String × Option String) (f : String),
      (files.foldl (gmrfStep m) acc).2 = some f →
      acc.2 = some f ∨ (m f).isSome = true := by
  intro files
  induction files with
  | nil => intro acc f h; exact Or.inl h
  | cons g gs ih =>
    intro acc f h
    rw [List.foldl_cons] at h
    rcases ih (gmrfStep m acc g) f h with hacc | hm
    · unfold gmrfStep at hacc
      cases hg : m g with
      | none => rw [hg] at hacc; exact Or.inl hacc
      | some dv =>
        rw [hg] at hacc
        by_cases hlt : lexLt acc.1.data dv.data = true
        · simp [hlt] at hacc
          subst hacc
          exact Or.inr (by rw [hg]; rfl)
        · simp [hlt] at hacc
          exact Or.inl hacc
    · exact Or.inr hm

/-- C10: `ExtractDateFromFilename` succeeds exactly on filenames of the
shape `.+(\d{6}).+` — a six-digit run with at least one character before
it and at least one character after it — and signals the fatal
no-date error otherwise; in particular the deletion-list name
`LOEPPN-200101`, which ends right after its date, has no extractable
date, and a file rejected by that same shape regex is never selected by
the `GetMostRecentFile` scan that `GetCutoffDateForDownloads` performs
with it. -/
theorem c10_extract_date_shape :
    (∀ f : String, (ExtractDateFromFilename f).isSome = true ↔ HasDateShape f) ∧
    ExtractDateFromFilename "LOEPPN-200101" = none ∧
    (∀ (files : List String) (f : String), ExtractDateFromFilename f = none →
      GetMostRecentFile ExtractDateFromFilename files ≠ some f) := by
  refine ⟨?_, rfl, ?_⟩
  · intro f
    constructor
    · intro h
      unfold ExtractDateFromFilename at h
      cases hg : ((List.range f.data.length).filter (windowOk f.data)).getLast? with
      | none => rw [hg] at h; simp at h
      | some i =>
        have hmem : i ∈ (List.range f.data.length).filter (windowOk f.data) :=
          List.mem_of_mem_getLast? hg
        have hw : windowOk f.data i = true := (List.mem_filter.mp hmem).2
        have hilt : i < f.data.length := List.mem_range.mp (List.mem_filter.mp hmem).1
        unfold windowOk at hw
        rw [Bool.and_eq_true, Bool.and_eq_true, Bool.and_eq_true, Bool.and_eq_true] at hw
        obtain ⟨⟨⟨⟨h1, h2⟩, h3⟩, h4⟩, h5⟩ := hw
        have hi1 : 1 ≤ i := of_decide_eq_true h1
        have hlen6 : ((f.data.drop i).take 6).length = 6 := of_decide_eq_true h3
        cases htail : (f.data.drop i).drop 6 with
        | nil => rw [htail] at h5; simp at h5
        | cons c rest =>
          rw [htail] at h5
          refine ⟨f.data.take i, (f.data.drop i).take 6, c, rest, ?_, ?_, ?_, hlen6, ?_, ?_⟩
          · rw [← htail, List.append_assoc, List.take_append_drop, List.take_append_drop]
          · have hlt : (f.data.take i).length = i := by
              rw [List.length_take]
              omega
            intro hnil
            rw [hnil] at hlt
            simp at hlt
            omega
          · intro x hx
            simpa using List.all_eq_true.mp h2 x hx
          · intro x hx
            exact List.all_eq_true.mp h4 x hx
          · simpa using h5
    · rintro ⟨p, d, c, rest, hdecomp, hp, hpnl, hdlen, hdig, hcnl⟩
      have hwin : windowOk f.data p.length = true := by
        unfold windowOk
        rw [hdecomp, List.append_assoc]
        rw [List.take_left, List.drop_left]
        have ht6 : (d ++ c :: rest).take 6 = d := by
          rw [← hdlen]
          exact List.take_left d _
        have hd6 : (d ++ c :: rest).drop 6 = c :: rest := by
          rw [← hdlen]
          exact List.drop_left d _
        rw [ht6, hd6]
        simp only [Bool.and_eq_true, decide_eq_true_eq]
        refine ⟨⟨⟨⟨?_, ?_⟩, hdlen⟩, ?_⟩, ?_⟩
        · exact List.length_pos.mpr hp
        · apply List.all_eq_true.mpr
          intro x hx
          simpa using hpnl x hx
        · exact List.all_eq_true.mpr hdig
        · simpa using hcnl
      have hirange : p.length ∈ List.range f.data.length := by
        apply List.mem_range.mpr
        rw [hdecomp, List.length_append, List.length_append, List.length_cons]
        omega
      have himem : p.length ∈ (List.range f.data.length).filter (windowOk f.data) :=
        List.mem_filter.mpr ⟨hirange, hwin⟩
      have hne : (List.range f.data.length).filter (windowOk f.data) ≠ [] := by
        intro hnil
        rw [hnil] at himem
        cases himem
      have hsome := List.getLast?_isSome.mpr hne
      unfold ExtractDateFromFilename
      cases hg : ((List.range f.data.length).filter (windowOk f.data)).getLast? with
      | none => rw [hg] at hsome; simp at hsome
      | some j => simp
  · intro files f hf hcontra
    unfold GetMostRecentFile at hcontra
    rcases gmrf_acc ExtractDateFromFilename files ("000000", none) f hcontra with h | h
    · cases h
    · rw [hf] at h
      simp at h

/-- Witness for C10: a dateless deletion-list name is never chosen as the
most recent backup file. -/
theorem c10_extract_date_shape_witness :
    GetMostRecentFile ExtractDateFromFilename ["LOEPPN-200101"] ≠
      some "LOEPPN-200101" :=
  c10_extract_date_shape.2.2 ["LOEPPN-200101"] "LOEPPN-200101" rfl

/-! ## C9: the sentinel cutoff crashes the ten-day shift -/

/-- C9: `ShiftDateToTenDaysBefore` rejects the sentinel `"000000"` (its
month field is zero, so `strptime` raises), and consequently a run whose
cumulative store is empty and whose full-dump listing yields nothing —
leaving the cutoff at `"000000"` — aborts with that exception at the
authority-differential cutoff computation, before the
`Normdatendifferenzabzug` download and before the cleanup pass, both of
which only run on the success path below that computation. -/
theorem c9_sentinel_shift_aborts :
    ShiftDateToTenDaysBefore "000000" = none ∧
    (∀ env : Env, env.store = [] →
      filterByCutoff kompletterMatch "000000" (env.remote "Kompletter Abzug") = [] →
      (filterByCutoff differenzMatch "000000"
        (env.remote "Differenzabzug")).length % 2 = 0 →
      Main env =
        .error (Err.exc "time data 000000 does not match format yymmdd")) := by
  refine ⟨rfl, ?_⟩
  intro env hstore hK hD
  have h1 : mainCutoff env = .ok "000000" := by
    unfold mainCutoff GetCutoffDateForDownloads
    rw [hstore]
    rfl
  have h2 : DownloadCompleteData kompletterPattern kompletterMatch
      (env.remote "Kompletter Abzug") "000000" (RunState.mk env.store [] []) =
      .ok (dlStep kompletterPattern [] "Kompletter Abzug"
        (RunState.mk env.store [] []), none) := by
    unfold DownloadCompleteData
    rw [DownloadData_ok_noPair kompletterPattern kompletterMatch
      (env.remote "Kompletter Abzug") "Kompletter Abzug" "000000"
      (RunState.mk env.store [] []) rfl]
    rw [hK]
    rfl
  have h3 : ∀ st : RunState, mainTail env "000000" st =
      .error (Err.exc "time data 000000 does not match format yymmdd") := by
    intro st
    unfold mainTail
    rw [DownloadData_ok_even differenzPattern differenzMatch
      (env.remote "Differenzabzug") "000000" "Differenzabzug" st hD]
    dsimp only
    rw [DownloadData_ok_noPair loeschPattern loeschMatch
      (env.remote "Loeschlisten") "Loeschlisten" "000000" _ rfl]
    dsimp only
    rw [DownloadData_ok_noPair loesch2Pattern loesch2Match
      (env.remote "Loeschlisten2") "Loeschlisten2" "000000" _ rfl]
    dsimp only
    rw [DownloadData_ok_noPair hinweisPattern hinweisMatch
      (env.remote "Hinweisabzug") "Hinweisabzug" "000000" _ rfl]
    dsimp only
    rw [DownloadData_ok_noPair errorsPattern errorsMatch
      (env.remote "Errors") "Errors" "000000" _ rfl]
    rfl
  unfold Main
  simp only [h1, h2]
  exact h3 _

/-- Witness for C9: the all-empty environment. -/
theorem c9_sentinel_shift_aborts_witness :
    Main (Env.mk [] (fun _ => [])) =
      .error (Err.exc "time data 000000 does not match format yymmdd") :=
  c9_sentinel_shift_aborts.2 (Env.mk [] (fun _ => [])) rfl rfl rfl

/-! ## C3: successor and lexicographic order -/

/-- Characters with equal code points are equal. -/
theorem char_toNat_inj {a b : Char} (h : a.toNat = b.toNat) : a = b := by
  rcases a with ⟨⟨a1, ha1⟩, ha⟩
  rcases b with ⟨⟨b1, hb1⟩, hb⟩
  simp [Char.toNat, UInt32.toNat] at h
  subst h
  rfl

/-- Code-point bounds of a digit character. -/
theorem isDigitB_bounds {c : Char} (h : isDigitB c = true) :
    48 ≤ c.toNat ∧ c.toNat ≤ 57 := by
  unfold isDigitB at h
  rw [Bool.and_eq_true] at h
  exact ⟨of_decide_eq_true h.1, of_decide_eq_true h.2⟩

/-- Code point of a digit character by value. -/
theorem digitChar_toNat {k : Nat} (h : k ≤ 9) : (digitChar k).toNat = 48 + k := by
  interval_cases k <;> rfl

/-- Fact: `digitChar` produces digits. -/
theorem digitChar_isDigitB {k : Nat} (h : k ≤ 9) : isDigitB (digitChar k) = true := by
  interval_cases k <;> rfl

/-- Fact: `digitVal` inverts `digitChar`. -/
theorem digitVal_digitChar {k : Nat} (h : k ≤ 9) : digitVal (digitChar k) = k := by
  interval_cases k <;> rfl

/-- Fact: `digitChar` inverts `digitVal` on digit characters. -/
theorem digitChar_of_val {c : Char} (h : isDigitB c = true) :
    digitChar (digitVal c) = c := by
  obtain ⟨h1, h2⟩ := isDigitB_bounds h
  apply char_toNat_inj
  rw [digitChar_toNat (by unfold digitVal; omega)]
  unfold digitVal
  omega

/-- The value of a digit string is below the power of ten of its width. -/
theorem natVal_lt_pow (cs : List Char) (h : ∀ c ∈ cs, isDigitB c = true) :
    natVal cs < 10 ^ cs.length := by
  induction cs with
  | nil => simp [natVal]
  | cons c cs ih =>
    have hc := isDigitB_bounds (h c (List.mem_cons_self c cs))
    have hd : digitVal c ≤ 9 := by unfold digitVal; omega
    have ht := ih (fun x hx => h x (List.mem_cons_of_mem c hx))
    simp only [natVal, List.length_cons]
    calc digitVal c * 10 ^ cs.length + natVal cs
        < digitVal c * 10 ^ cs.length + 10 ^ cs.length :=
          Nat.add_lt_add_left ht _
      _ ≤ 9 * 10 ^ cs.length + 10 ^ cs.length :=
          Nat.add_le_add_right (Nat.mul_le_mul_right _ hd) _
      _ = 10 ^ cs.length * 10 := by ring
      _ = 10 ^ (cs.length + 1) := (pow_succ 10 cs.length).symm

/-- On equal-width digit strings, a smaller numeric value means a
lexicographically smaller string (Python's string `<`). -/
theorem lexLt_of_natVal_lt :
    ∀ (a b : List Char), a.length = b.length →
      (∀ c ∈ a, isDigitB c = true) → (∀ c ∈ b, isDigitB c = true) →
      natVal a < natVal b → lexLt a b = true := by
  intro a
  induction a with
  | nil =>
    intro b hlen _ _ hlt
    cases b with
    | nil => simp [natVal] at hlt
    | cons _ _ => simp at hlen
  | cons x xs ih =>
    intro b hlen ha hb hlt
    cases b with
    | nil => simp at hlen
    | cons y ys =>
      have hlen' : xs.length = ys.length := by simpa using hlen
      have hx := isDigitB_bounds (ha x (List.mem_cons_self x xs))
      have hy := isDigitB_bounds (hb y (List.mem_cons_self y ys))
      have hxs : ∀ c ∈ xs, isDigitB c = true :=
        fun c hc => ha c (List.mem_cons_of_mem x hc)
      have hys : ∀ c ∈ ys, isDigitB c = true :=
        fun c hc => hb c (List.mem_cons_of_mem y hc)
      unfold lexLt
      by_cases h1 : x.toNat < y.toNat
      · rw [if_pos h1]
      · rw [if_neg h1]
        by_cases h2 : x.toNat = y.toNat
        · rw [if_pos h2]
          apply ih ys hlen' hxs hys
          have hw : digitVal x = digitVal y := by unfold digitVal; omega
          simp only [natVal] at hlt
          rw [hlen', hw] at hlt
          exact Nat.lt_of_add_lt_add_left hlt
        · exfalso
          have hgt : digitVal y < digitVal x := by unfold digitVal; omega
          have hby : natVal ys < 10 ^ ys.length := natVal_lt_pow ys hys
          simp only [natVal] at hlt
          rw [hlen'] at hlt
          have h4 : digitVal y * 10 ^ ys.length + 10 ^ ys.length ≤
              digitVal x * 10 ^ ys.length := by
            calc digitVal y * 10 ^ ys.length + 10 ^ ys.length
                = (digitVal y + 1) * 10 ^ ys.length := by ring
              _ ≤ digitVal x * 10 ^ ys.length := Nat.mul_le_mul_right _ hgt
          linarith

/-- The formatted date is always six characters wide. -/
theorem format_length (t : Nat × Nat × Nat) : (formatYYMMDD t).data.length = 6 := by
  rcases t with ⟨y, m, d⟩
  rfl

/-- The formatted date consists of digits. -/
theorem format_digits (t : Nat × Nat × Nat) (hm : t.2.1 < 100) (hd : t.2.2 < 100) :
    ∀ c ∈ (formatYYMMDD t).data, isDigitB c = true := by
  rcases t with ⟨y, m, d⟩
  dsimp only at hm hd
  intro c hc
  simp only [formatYYMMDD, pad2, List.cons_append, List.nil_append] at hc
  simp only [List.mem_cons, List.not_mem_nil, or_false] at hc
  have hy : y % 100 ≤ 99 := by omega
  rcases hc with rfl | rfl | rfl | rfl | rfl | rfl <;>
    exact digitChar_isDigitB (by omega)

/-- Numeric value of the formatted date. -/
theorem natVal_format (t : Nat × Nat × Nat) (hm : t.2.1 < 100) (hd : t.2.2 < 100) :
    natVal (formatYYMMDD t).data = (t.1 % 100) * 10000 + t.2.1 * 100 + t.2.2 := by
  rcases t with ⟨y, m, d⟩
  dsimp only at hm hd
  have b1 : (y % 100) / 10 ≤ 9 := by omega
  have b2 : (y % 100) % 10 ≤ 9 := by omega
  have b3 : m / 10 ≤ 9 := by omega
  have b4 : m % 10 ≤ 9 := by omega
  have b5 : d / 10 ≤ 9 := by omega
  have b6 : d % 10 ≤ 9 := by omega
  simp only [formatYYMMDD, pad2, List.cons_append, List.nil_append]
  simp only [natVal, List.length_cons, List.length_nil]
  rw [digitVal_digitChar b1, digitVal_digitChar b2, digitVal_digitChar b3,
    digitVal_digitChar b4, digitVal_digitChar b5, digitVal_digitChar b6]
  norm_num
  omega

/-- Every month has at most 31 days. -/
theorem daysInMonth_le (y m : Nat) : daysInMonth y m ≤ 31 := by
  unfold daysInMonth
  split_ifs <;> omega

/-- December always has 31 days. -/
theorem daysInMonth_twelve (y : Nat) : daysInMonth y 12 = 31 := rfl

/-- Facts that a successful `strptime` yields about the input string. -/
theorem parse_facts {s : String} {y m d : Nat}
    (h : parseYYMMDD s = some (y, m, d)) :
    s.data.length = 6 ∧ (∀ c ∈ s.data, isDigitB c = true) ∧
    natVal s.data = (y % 100) * 10000 + m * 100 + d ∧
    1 ≤ m ∧ m ≤ 12 ∧ 1 ≤ d ∧ d ≤ daysInMonth y m ∧ 1969 ≤ y ∧ y ≤ 2068 ∧
    (y % 100 = 99 ∧ m = 12 ∧ d = 31 → s = "991231") := by
  obtain ⟨cs⟩ := s
  rcases cs with _ | ⟨c1, _ | ⟨c2, _ | ⟨c3, _ | ⟨c4, _ | ⟨c5, _ | ⟨c6, _ | ⟨c7, t⟩⟩⟩⟩⟩⟩⟩ <;>
    simp only [parseYYMMDD] at h <;> try cases h
  split_ifs at h with hdig hrange
  · simp only [Option.some.injEq, Prod.mk.injEq] at h
    obtain ⟨hy, hm, hd⟩ := h
    have hall : ∀ c ∈ [c1, c2, c3, c4, c5, c6], isDigitB c = true :=
      List.all_eq_true.mp hdig
    have g1 := hall c1 (by simp)
    have g2 := hall c2 (by simp)
    have g3 := hall c3 (by simp)
    have g4 := hall c4 (by simp)
    have g5 := hall c5 (by simp)
    have g6 := hall c6 (by simp)
    have b1 : digitVal c1 ≤ 9 := by have := isDigitB_bounds g1; unfold digitVal; omega
    have b2 : digitVal c2 ≤ 9 := by have := isDigitB_bounds g2; unfold digitVal; omega
    have b3 : digitVal c3 ≤ 9 := by have := isDigitB_bounds g3; unfold digitVal; omega
    have b4 : digitVal c4 ≤ 9 := by have := isDigitB_bounds g4; unfold digitVal; omega
    have b5 : digitVal c5 ≤ 9 := by have := isDigitB_bounds g5; unfold digitVal; omega
    have b6 : digitVal c6 ≤ 9 := by have := isDigitB_bounds g6; unfold digitVal; omega
    have hy100 : y % 100 = 10 * digitVal c1 + digitVal c2 := by
      rw [← hy]
      unfold pivotYear
      split_ifs <;> omega
    have hybounds : 1969 ≤ y ∧ y ≤ 2068 := by
      rw [← hy]
      unfold pivotYear
      split_ifs <;> omega
    obtain ⟨hr1, hr2, hr3, hr4⟩ := hrange
    refine ⟨rfl, hall, ?_, ?_, ?_, ?_, ?_, hybounds.1, hybounds.2, ?_⟩
    · simp only [natVal, List.length_cons, List.length_nil]
      rw [hy100, ← hm, ← hd]
      norm_num
      omega
    · omega
    · omega
    · omega
    · rw [← hy, ← hm, ← hd]
      exact hr4
    · rintro ⟨h99, h12, h31⟩
      rw [hy100] at h99
      rw [← hm] at h12
      rw [← hd] at h31
      have e1 : digitVal c1 = 9 := by omega
      have e2 : digitVal c2 = 9 := by omega
      have e3 : digitVal c3 = 1 := by omega
      have e4 : digitVal c4 = 2 := by omega
      have e5 : digitVal c5 = 3 := by omega
      have e6 : digitVal c6 = 1 := by omega
      have k1 : c1 = '9' := by rw [← digitChar_of_val g1, e1]; rfl
      have k2 : c2 = '9' := by rw [← digitChar_of_val g2, e2]; rfl
      have k3 : c3 = '1' := by rw [← digitChar_of_val g3, e3]; rfl
      have k4 : c4 = '2' := by rw [← digitChar_of_val g4, e4]; rfl
      have k5 : c5 = '3' := by rw [← digitChar_of_val g5, e5]; rfl
      have k6 : c6 = '1' := by rw [← digitChar_of_val g6, e6]; rfl
      subst k1
      subst k2
      subst k3
      subst k4
      subst k5
      subst k6
      rfl

/-- Adding one day strictly increases the numeric YYMMDD value, except at
the excluded century wrap. -/
theorem nextDay_val (y m d : Nat) (h1 : 1 ≤ m) (h2 : m ≤ 12) (h3 : 1 ≤ d)
    (h4 : d ≤ daysInMonth y m) (h5 : ¬(y % 100 = 99 ∧ m = 12 ∧ d = 31)) :
    ((nextDay (y, m, d)).2.1 < 100 ∧ (nextDay (y, m, d)).2.2 < 100) ∧
    (y % 100) * 10000 + m * 100 + d <
      ((nextDay (y, m, d)).1 % 100) * 10000 + (nextDay (y, m, d)).2.1 * 100 +
      (nextDay (y, m, d)).2.2 := by
  have hdim := daysInMonth_le y m
  unfold nextDay
  dsimp only
  split_ifs with ha hb
  · dsimp only
    exact ⟨⟨by omega, by omega⟩, by omega⟩
  · dsimp only
    exact ⟨⟨by omega, by omega⟩, by omega⟩
  · have hm12 : m = 12 := by omega
    have hd31 : d = 31 := by
      rw [hm12, daysInMonth_twelve] at h4 ha
      omega
    have hy99 : y % 100 ≠ 99 := fun hc => h5 ⟨hc, hm12, hd31⟩
    dsimp only
    refine ⟨⟨by omega, by omega⟩, ?_⟩
    rw [hm12, hd31]
    omega

/-- C3 (amended): for every date the codec parses, other than `"991231"`,
the successor is lexicographically greater than the input under Python's
string comparison; the epoch sentinel `"000000"` is a fixed point.  (At
`"991231"` the two-digit year wraps to `"000101"` and the ordering claim
fails; see the counterexample.) -/
theorem c3_successor_monotone :
    (∀ (s : String) (y m d : Nat), parseYYMMDD s = some (y, m, d) →
      s ≠ "991231" →
      ∃ t, IncrementStringDate s = some t ∧ lexLt s.data t.data = true) ∧
    IncrementStringDate "000000" = some "000000" := by
  refine ⟨?_, rfl⟩
  intro s y m d hp hne
  obtain ⟨hlen, hdig, hval, hm1, hm2, hd1, hd2, hy1, hy2, h99⟩ := parse_facts hp
  refine ⟨formatYYMMDD (nextDay (y, m, d)), ?_, ?_⟩
  · have hs0 : ¬(s = "000000") := by
      intro heq
      rw [heq] at hp
      have h0 : parseYYMMDD "000000" = none := rfl
      rw [h0] at hp
      cases hp
    unfold IncrementStringDate
    rw [if_neg hs0, hp]
  · have h5 : ¬(y % 100 = 99 ∧ m = 12 ∧ d = 31) := fun hc => hne (h99 hc)
    obtain ⟨⟨hb1, hb2⟩, hlt⟩ := nextDay_val y m d hm1 hm2 hd1 hd2 h5
    apply lexLt_of_natVal_lt
    · rw [hlen, format_length]
    · exact hdig
    · exact format_digits (nextDay (y, m, d)) hb1 hb2
    · rw [hval, natVal_format (nextDay (y, m, d)) hb1 hb2]
      exact hlt

/-- C3 (counterexample to the claim as stated): `"991231"` is a valid
date, yet its successor `"000101"` is lexicographically smaller — the
two-digit year wraps at the century boundary. -/
theorem c3_century_wrap :
    parseYYMMDD "991231" = some (1999, 12, 31) ∧
    IncrementStringDate "991231" = some "000101" ∧
    lexLt "991231".data "000101".data = false :=
  ⟨rfl, rfl, rfl⟩

/-- Witness for C3: the amended theorem at `"200120"`. -/
theorem c3_successor_monotone_witness :
    ∃ t, IncrementStringDate "200120" = some t ∧
      lexLt "200120".data t.data = true :=
  c3_successor_monotone.1 "200120" 2020 1 20 rfl (by decide)

end FetchMarcUpdates
